import Mathlib

/-!
Shallow embedding, in Lean 4, of the atproto OAuth bootstrap client
(src/main.py).  Network I/O is modelled by oracle functions mapping a URL to
an HTTP outcome; randomness (secrets.token_hex / token_bytes) by oracle
values supplied in a World record; each fallible Python function becomes a
total Lean function returning an Option/Except result together with the list
of network requests it made, so that the no-network-call and fail-fast
properties are statable.
-/

set_option maxRecDepth 10000

/-! ### Character classes used by the regular expressions of main.py -/

/-- Characters matched by the regex class [a-zA-Z]. -/
def isAlphaCh (c : Char) : Bool :=
  (65 ≤ c.toNat && c.toNat ≤ 90) || (97 ≤ c.toNat && c.toNat ≤ 122)

/-- Characters matched by the regex class [0-9]. -/
def isDigitCh (c : Char) : Bool :=
  48 ≤ c.toNat && c.toNat ≤ 57

/-- Characters matched by the regex class [a-zA-Z0-9]. -/
def isAlnumCh (c : Char) : Bool :=
  isAlphaCh c || isDigitCh c

/-- Characters matched by the regex class [a-zA-Z0-9-]. -/
def isLabelCh (c : Char) : Bool :=
  isAlnumCh c || c = '-'

/-- Characters matched by the regex class [a-z] (DID method name). -/
def isLowerCh (c : Char) : Bool :=
  97 ≤ c.toNat && c.toNat ≤ 122

/-- Characters matched by the regex class [a-zA-Z0-9._%-] (DID
method-specific id). -/
def isDidIdCh (c : Char) : Bool :=
  isAlnumCh c || c = '.' || c = '_' || c = '%' || c = '-'

/-! ### Splitting on dots, as Python str.split(".") does (keeping empties) -/

/-- Python username.split(".") on a character list: split at every '.',
keeping empty parts; the empty input gives one empty part. -/
def splitDots : List Char → List (List Char)
  | [] => [[]]
  | c :: rest =>
    match splitDots rest with
    | [] => [[]]
    | p :: ps => if c = '.' then [] :: p :: ps else (c :: p) :: ps

/-- Python ".".join(parts) on character lists. -/
def joinDots : List (List Char) → List Char
  | [] => []
  | [p] => p
  | p :: ps => p ++ '.' :: joinDots ps

/-! ### The two anchored grammars of main.py

HANDLE_REGEX is
  ^([a-zA-Z0-9]([a-zA-Z0-9-]{0,61}[a-zA-Z0-9])?\.)+[a-zA-Z]([a-zA-Z0-9-]{0,61}[a-zA-Z0-9])?$
DID_RE is
  ^did:[a-z]+:[a-zA-Z0-9._%-]{1,2048}(?<!:)$
and both are used through re.match, whose $ also matches just before one
newline terminating the string (Python non-MULTILINE semantics). -/

/-- One inner label of HANDLE_REGEX: [a-zA-Z0-9]([a-zA-Z0-9-]{0,61}[a-zA-Z0-9])?
i.e. either a single alphanumeric character, or an alphanumeric character,
then up to 61 characters from [a-zA-Z0-9-], then an alphanumeric character. -/
def labelCore : List Char → Bool
  | [] => false
  | [c] => isAlnumCh c
  | c :: rest =>
    isAlnumCh c && decide (rest.length ≤ 62) && rest.all isLabelCh
      && isAlnumCh (rest.getLastD 'a')

/-- The final label of HANDLE_REGEX: [a-zA-Z]([a-zA-Z0-9-]{0,61}[a-zA-Z0-9])?
like labelCore but the first character must be a letter. -/
def finalLabelCore : List Char → Bool
  | [] => false
  | [c] => isAlphaCh c
  | c :: rest =>
    isAlphaCh c && decide (rest.length ≤ 62) && rest.all isLabelCh
      && isAlnumCh (rest.getLastD 'a')

/-- HANDLE_REGEX without the Python-$ newline allowance: since no label may
contain '.', a match of (label\.)+finalLabel decomposes the string exactly at
its dots, so the string matches iff splitting on '.' gives at least two
parts, every part but the last matches labelCore and the last matches
finalLabelCore. -/
def handleCoreMatch (cs : List Char) : Bool :=
  let parts := splitDots cs
  decide (2 ≤ parts.length) && parts.dropLast.all labelCore
    && finalLabelCore (parts.getLastD [])

/-- DID_RE without the Python-$ newline allowance.  After the literal
prefix did: the method name [a-z]+ runs up to the next ':' (which is in
neither character class, so the split is forced), then the
method-specific id [a-zA-Z0-9._%-]{1,2048} must reach the end.  The
lookbehind (?<!:) demands that the character before the end is not ':';
it is kept here although no character of the id class is ':'. -/
def didCoreMatch : List Char → Bool
  | c1 :: c2 :: c3 :: c4 :: rest =>
    (c1 = 'd' && c2 = 'i' && c3 = 'd' && c4 = ':') &&
      (let m := rest.takeWhile (fun c => !(c = ':'))
       let r2 := rest.drop m.length
       (!m.isEmpty) && m.all isLowerCh &&
        (match r2 with
         | c5 :: idpart =>
           (c5 = ':') && (!idpart.isEmpty) && decide (idpart.length ≤ 2048)
             && idpart.all isDidIdCh && !(idpart.getLastD 'a' = ':')
         | _ => false))
  | _ => false

/-- Python re.match with a pattern of the form ^core$: the whole string
matches core, or the string ends in one newline and everything before it
matches core. -/
def pyDollarMatch (core : List Char → Bool) (cs : List Char) : Bool :=
  core cs ||
    (match cs.getLast? with
     | some c => decide (c = '\n') && core cs.dropLast
     | none => false)

/-- re.match(HANDLE_REGEX, s) of main.py as a Boolean. -/
def HANDLE_REGEX_match (s : String) : Bool :=
  pyDollarMatch handleCoreMatch s.data

/-- re.match(DID_RE, s) of main.py as a Boolean. -/
def DID_RE_match (s : String) : Bool :=
  pyDollarMatch didCoreMatch s.data

/-! ### HTTP outcomes and Python truthiness -/

/-- Outcome of one httpx request, as the except-clauses of main.py
distinguish them: a 2xx response with a parsed JSON body, an
httpx.HTTPStatusError carrying the status code, an httpx.RequestError,
or a json.JSONDecodeError. -/
inductive HttpOutcome (α : Type) where
  | ok (body : α)
  | httpStatusError (status : Nat)
  | requestError
  | jsonDecodeError
deriving DecidableEq

/-- Python truthiness of an optional string (None and the empty string are
falsy). -/
def strTruthy : Option String → Bool
  | none => false
  | some s => !(s = "")

/-! ### resolve_identity (src/main.py lines 49-107)

The JSON body of the resolveHandle response is read only through
data.get("did"), modelled by one optional field. -/

/-- Parsed JSON body of the com.atproto.identity.resolveHandle response:
only its did field is read. -/
structure ResolveBody where
  did : Option String
deriving DecidableEq

/-- resolve_identity(username) of main.py.  The network is the oracle
net (URL to outcome); the second component lists the URLs requested, so
that performing no network call is the statement that it is empty. -/
def resolve_identity (net : String → HttpOutcome ResolveBody) (username : String) :
    Option String × List String :=
  if HANDLE_REGEX_match username then
    let parts := splitDots username.data
    if 2 ≤ parts.length then
      let domain_tld := String.mk (joinDots parts.tail)
      let url := "https://" ++ domain_tld
        ++ "/xrpc/com.atproto.identity.resolveHandle?handle=" ++ username
      match net url with
      | .ok data =>
        match data.did with
        | some d => if !(d = "") then (some d, [url]) else (none, [url])
        | none => (none, [url])
      | _ => (none, [url])
    else
      (none, [])
  else if DID_RE_match username then
    (some username, [])
  else
    (none, [])

/-! ### base64url encoding (base64.urlsafe_b64encode) and PKCE generation -/

/-- Character number i of the URL-safe base64 alphabet
A-Z a-z 0-9 - _ (RFC 4648, as base64.urlsafe_b64encode uses). -/
def b64Char (i : Nat) : Char :=
  if i < 26 then Char.ofNat (65 + i)
  else if i < 52 then Char.ofNat (97 + (i - 26))
  else if i < 62 then Char.ofNat (48 + (i - 52))
  else if i = 62 then '-'
  else '_'

/-- base64.urlsafe_b64encode on a list of bytes (each reduced mod 256: the
Python input is a bytes object, whose elements are below 256 by type),
producing the padded encoding. -/
def base64urlEncode : List Nat → List Char
  | [] => []
  | [a] =>
    let a := a % 256
    [b64Char (a / 4), b64Char (a % 4 * 16), '=', '=']
  | [a, b] =>
    let a := a % 256
    let b := b % 256
    [b64Char (a / 4), b64Char (a % 4 * 16 + b / 16), b64Char (b % 16 * 4), '=']
  | a :: b :: c :: rest =>
    let a := a % 256
    let b := b % 256
    let c := c % 256
    b64Char (a / 4) :: b64Char (a % 4 * 16 + b / 16)
      :: b64Char (b % 16 * 4 + c / 64) :: b64Char (c % 64)
      :: base64urlEncode rest

/-- Python s.rstrip(ch): remove every trailing occurrence of ch. -/
def rstripChar (ch : Char) (cs : List Char) : List Char :=
  (cs.reverse.dropWhile (fun c => c = ch)).reverse

/-- generate_code_verifier(length) of main.py (lines 308-338).  The length
is a Python int (modelled as Int so out-of-range arguments such as -1 are
statable); secrets.token_bytes is the oracle tokenBytes, and the returned
list records the sizes of the token_bytes requests made, so that raising
before any random-byte generation is the statement that it is empty.
The ValueError becomes an Except.error carrying the message. -/
def generate_code_verifier (length : Int) (tokenBytes : Nat → List Nat) :
    Except String String × List Nat :=
  if length < 43 ∨ 128 < length then
    (.error "Code verifier length must be between 43 and 128 characters", [])
  else
    let n := (length * 3 / 4).toNat
    let random_bytes := tokenBytes n
    let code_verifier := rstripChar '=' (base64urlEncode random_bytes)
    (.ok (String.mk (code_verifier.take length.toNat)), [n])

/-! ### SHA-256 (FIPS 180-4), the hashlib.sha256 collaborator of
generate_code_challenge, on lists of bytes; all words are Nat reduced
mod 2^32. -/

/-- Right rotation of a 32-bit word. -/
def rotr32 (n x : Nat) : Nat :=
  ((x >>> n) ||| (x <<< (32 - n))) % 4294967296

/-- SHA-256 big sigma-0. -/
def bsig0 (x : Nat) : Nat := rotr32 2 x ^^^ rotr32 13 x ^^^ rotr32 22 x

/-- SHA-256 big sigma-1. -/
def bsig1 (x : Nat) : Nat := rotr32 6 x ^^^ rotr32 11 x ^^^ rotr32 25 x

/-- SHA-256 small sigma-0. -/
def ssig0 (x : Nat) : Nat := rotr32 7 x ^^^ rotr32 18 x ^^^ (x >>> 3)

/-- SHA-256 small sigma-1. -/
def ssig1 (x : Nat) : Nat := rotr32 17 x ^^^ rotr32 19 x ^^^ (x >>> 10)

/-- SHA-256 choice function. -/
def shaCh (x y z : Nat) : Nat := (x &&& y) ^^^ ((x ^^^ 4294967295) &&& z)

/-- SHA-256 majority function. -/
def shaMaj (x y z : Nat) : Nat := (x &&& y) ^^^ (x &&& z) ^^^ (y &&& z)

/-- The 64 SHA-256 round constants of FIPS 180-4 (the fractional parts of
the cube roots of the first 64 primes), written in decimal. -/
def sha256K : List Nat :=
  [1116352408, 1899447441, 3049323471, 3921009573, 961987163, 1508970993,
   2453635748, 2870763221, 3624381080, 310598401, 607225278, 1426881987,
   1925078388, 2162078206, 2614888103, 3248222580, 3835390401, 4022224774,
   264347078, 604807628, 770255983, 1249150122, 1555081692, 1996064986,
   2554220882, 2821834349, 2952996808, 3210313671, 3336571891, 3584528711,
   113926993, 338241895, 666307205, 773529912, 1294757372, 1396182291,
   1695183700, 1986661051, 2177026350, 2456956037, 2730485921, 2820302411,
   3259730800, 3345764771, 3516065817, 3600352804, 4094571909, 275423344,
   430227734, 506948616, 659060556, 883997877, 958139571, 1322822218,
   1537002063, 1747873779, 1955562222, 2024104815, 2227730452, 2361852424,
   2428436474, 2756734187, 3204031479, 3329325298]

/-- The SHA-256 initial hash value of FIPS 180-4, written in decimal. -/
def sha256H0 : List Nat :=
  [1779033703, 3144134277, 1013904242, 2773480762,
   1359893119, 2600822924, 528734635, 1541459225]

/-- A number as k big-endian bytes. -/
def natToBytesBE (k n : Nat) : List Nat :=
  (List.range k).map (fun i => (n >>> (8 * (k - 1 - i))) % 256)

/-- Big-endian bytes to a number. -/
def bytesToWordBE (bs : List Nat) : Nat :=
  bs.foldl (fun acc b => acc * 256 + b % 256) 0

/-- SHA-256 message padding: append 0x80, then zeros up to 56 mod 64
bytes, then the bit length as 8 big-endian bytes. -/
def sha256Pad (msg : List Nat) : List Nat :=
  let L := msg.length
  let zeros := (120 - (L + 1) % 64) % 64
  msg ++ 128 :: List.replicate zeros 0 ++ natToBytesBE 8 ((8 * L) % 18446744073709551616)

/-- The 16 initial 32-bit message-schedule words of one 64-byte block. -/
def blockWords (block : List Nat) : List Nat :=
  (List.range 16).map (fun i => bytesToWordBE ((block.drop (4 * i)).take 4))

/-- Extend the message schedule by k further words. -/
def extendSchedule (ws : List Nat) : Nat → List Nat
  | 0 => ws
  | k + 1 =>
    let prev := extendSchedule ws k
    let t := prev.length
    prev ++ [(ssig1 (prev.getD (t - 2) 0) + prev.getD (t - 7) 0
      + ssig0 (prev.getD (t - 15) 0) + prev.getD (t - 16) 0) % 4294967296]

/-- One SHA-256 compression round; the state is the list [a,b,c,d,e,f,g,h]. -/
def sha256Round (st : List Nat) (kw : Nat × Nat) : List Nat :=
  match st with
  | [a, b, c, d, e, f, g, h] =>
    let t1 := (h + bsig1 e + shaCh e f g + kw.1 + kw.2) % 4294967296
    let t2 := (bsig0 a + shaMaj a b c) % 4294967296
    [(t1 + t2) % 4294967296, a, b, c, (d + t1) % 4294967296, e, f, g]
  | _ => st

/-- Process one 64-byte block into the running hash (eight 32-bit words). -/
def sha256Block (H : List Nat) (block : List Nat) : List Nat :=
  let ws := extendSchedule (blockWords block) 48
  let st := ws.zip sha256K |>.foldl sha256Round H
  (H.zip st).map (fun p => (p.1 + p.2) % 4294967296)

/-- SHA-256 of a byte list, as 32 bytes (hashlib.sha256(..).digest()). -/
def sha256 (msg : List Nat) : List Nat :=
  let padded := sha256Pad msg
  let blocks := (List.range (padded.length / 64)).map
    (fun i => (padded.drop (64 * i)).take 64)
  ((blocks.foldl sha256Block sha256H0).map (natToBytesBE 4)).flatten

/-- Python code_verifier.encode("ascii"): the code points as bytes when all
are below 128, a UnicodeEncodeError otherwise. -/
def asciiEncode (s : String) : Except String (List Nat) :=
  if s.data.all (fun c => c.toNat < 128) then .ok (s.data.map Char.toNat)
  else .error "UnicodeEncodeError"

/-- generate_code_challenge(code_verifier) of main.py (lines 341-365):
SHA-256 of the ASCII bytes of the verifier, base64url-encoded, padding
stripped. -/
def generate_code_challenge (code_verifier : String) : Except String String :=
  match asciiEncode code_verifier with
  | .error e => .error e
  | .ok code_verifier_bytes =>
    let hash_bytes := sha256 code_verifier_bytes
    .ok (String.mk (rstripChar '=' (base64urlEncode hash_bytes)))

/-! ### get_did_document (src/main.py lines 110-156) -/

/-- One entry of the service list of a DID document: only its
serviceEndpoint field is read. -/
structure ServiceEntry where
  serviceEndpoint : Option String
deriving DecidableEq

/-- Parsed DID document.  The code reads only the service list; presence of
any other JSON field, which makes the Python dict truthy, is modelled by
the flag extraFields. -/
structure DidDocument where
  extraFields : Bool
  service : Option (List ServiceEntry)
deriving DecidableEq

/-- Python truthiness of the parsed DID-document dict (a dict is truthy
iff it has at least one key). -/
def didDocTruthy (d : DidDocument) : Bool :=
  d.extraFields || d.service.isSome

/-- Python truthiness of the optional DID document of main(). -/
def didDocOptTruthy : Option DidDocument → Bool
  | none => false
  | some d => didDocTruthy d

/-- get_did_document(did) of main.py.  A 404 and a 410 status are
distinguished from other HTTP errors only in logging; all of them, and
transport and JSON errors, yield (None, None). -/
def get_did_document (net : String → HttpOutcome DidDocument) (did : String) :
    (Option DidDocument × Option String) × List String :=
  let url := "https://plc.directory/" ++ did
  match net url with
  | .ok did_document =>
    let pds_url : Option String :=
      match did_document.service with
      | some (entry :: _) => entry.serviceEndpoint
      | _ => none
    if strTruthy pds_url then ((some did_document, pds_url), [url])
    else ((some did_document, none), [url])
  | .httpStatusError status =>
    if status = 404 then ((none, none), [url])
    else if status = 410 then ((none, none), [url])
    else ((none, none), [url])
  | .requestError => ((none, none), [url])
  | .jsonDecodeError => ((none, none), [url])

/-! ### get_pds_metadata and extract_auth_server (src/main.py lines 158-213) -/

/-- The authorization_servers field of the PDS metadata as dict.get sees
it: missing, present but not a list (isinstance fails), or a list of
server URL strings. -/
inductive ASField where
  | absent
  | notList
  | strs (l : List String)
deriving DecidableEq

/-- Parsed PDS protected-resource metadata; extraFields models presence of
JSON fields other than authorization_servers for dict truthiness. -/
structure PdsMetadata where
  extraFields : Bool
  authorization_servers : ASField
deriving DecidableEq

/-- Python truthiness of the parsed PDS metadata dict. -/
def pdsMetaTruthy (m : PdsMetadata) : Bool :=
  m.extraFields || !(m.authorization_servers = ASField.absent)

/-- Python truthiness of the optional PDS metadata of main(). -/
def pdsMetaOptTruthy : Option PdsMetadata → Bool
  | none => false
  | some m => pdsMetaTruthy m

/-- Python s.rstrip("/") on a string. -/
def rstripSlash (s : String) : String :=
  String.mk (rstripChar '/' s.data)

/-- get_pds_metadata(pds_url) of main.py: None input or empty-string input
(Python falsy) fails immediately with no request; otherwise one GET of the
well-known URL, any error yielding None. -/
def get_pds_metadata (net : String → HttpOutcome PdsMetadata) (pds_url : Option String) :
    Option PdsMetadata × List String :=
  if !(strTruthy pds_url) then (none, [])
  else
    let metadata_url := rstripSlash (pds_url.getD "") ++ "/.well-known/oauth-protected-resource"
    match net metadata_url with
    | .ok metadata => (some metadata, [metadata_url])
    | _ => (none, [metadata_url])

/-- extract_auth_server(metadata) of main.py: None (or a falsy dict) gives
None; a missing, non-list or empty authorization_servers gives None; a
non-empty list is returned whole. -/
def extract_auth_server (metadata : Option PdsMetadata) : Option (List String) :=
  if !(pdsMetaOptTruthy metadata) then none
  else
    match metadata with
    | none => none
    | some m =>
      match m.authorization_servers with
      | ASField.strs l => if l.isEmpty then none else some l
      | _ => none

/-! ### get_auth_server_metadata (src/main.py lines 216-285) -/

/-- Parsed authorization-server metadata: the three endpoint fields the
code reads, plus extraFields for dict truthiness on any further field. -/
structure AuthMetadata where
  extraFields : Bool
  authorization_endpoint : Option String
  token_endpoint : Option String
  pushed_authorization_request_endpoint : Option String
deriving DecidableEq

/-- Python truthiness of the parsed auth-server metadata dict. -/
def authMetaTruthy (m : AuthMetadata) : Bool :=
  m.extraFields || m.authorization_endpoint.isSome || m.token_endpoint.isSome
    || m.pushed_authorization_request_endpoint.isSome

/-- Python truthiness of the optional auth-server metadata of main(). -/
def authMetaOptTruthy : Option AuthMetadata → Bool
  | none => false
  | some m => authMetaTruthy m

/-- Python truthiness of the optional authorization-server list main()
receives from extract_auth_server (None and the empty list are falsy). -/
def optListTruthy : Option (List String) → Bool
  | none => false
  | some l => !l.isEmpty

/-- The well-known metadata URL tried for one candidate server. -/
def authMetadataUrl (auth_server : String) : String :=
  rstripSlash auth_server ++ "/.well-known/oauth-authorization-server"

/-- get_auth_server_metadata(auth_servers) of main.py: try each candidate
in order; on a fetch error or missing (Python-falsy) required endpoint,
continue with the next; return at the first candidate whose metadata has
truthy authorization_endpoint and token_endpoint; all None when the list
is exhausted (the initial not-a-list/empty guard and the final return of
the Python function coincide in this case). -/
def get_auth_server_metadata (net : String → HttpOutcome AuthMetadata) :
    List String → (Option AuthMetadata × Option String × Option String × Option String) × List String
  | [] => ((none, none, none, none), [])
  | auth_server :: rest =>
    let metadata_url := authMetadataUrl auth_server
    match net metadata_url with
    | .ok metadata =>
      let auth_endpoint := metadata.authorization_endpoint
      let token_endpoint := metadata.token_endpoint
      let par_endpoint := metadata.pushed_authorization_request_endpoint
      if strTruthy auth_endpoint && strTruthy token_endpoint then
        ((some metadata, auth_endpoint, token_endpoint, par_endpoint), [metadata_url])
      else
        let r := get_auth_server_metadata net rest
        (r.1, metadata_url :: r.2)
    | _ =>
      let r := get_auth_server_metadata net rest
      (r.1, metadata_url :: r.2)

/-! ### send_par_request (src/main.py lines 368-452) -/

/-- Parsed JSON body of the PAR response: the code reads request_uri and
expires_in. -/
structure ParBody where
  request_uri : Option String
  expires_in : Option Int
deriving DecidableEq

/-- The default scope argument of send_par_request. -/
def defaultScope : String := "atproto transition:generic"

/-- One POST request of the PAR client: the endpoint and the form-encoded
parameters in insertion order (a Python dict preserves it); a parameter
may carry None. -/
def parParams (code_challenge state : String) (login_hint client_id redirect_uri : Option String)
    (scope : String) : List (String × Option String) :=
  let params := [("response_type", some "code"), ("code_challenge_method", some "S256"),
    ("scope", some scope), ("client_id", client_id), ("redirect_uri", redirect_uri),
    ("code_challenge", some code_challenge), ("state", some state)]
  if strTruthy login_hint then params ++ [("login_hint", login_hint)] else params

/-- send_par_request of main.py.  A None or empty endpoint fails with no
request; every HTTP, transport or JSON error (the best-effort logging of an
error body swallows its own parse failures and yields nothing) and a 2xx
body without a truthy request_uri give (None, None); a 2xx body with a
truthy request_uri gives (request_uri, expires_in) with expires_in passed
through unchanged.  The trace lists each POST with its parameters. -/
def send_par_request (net : String → HttpOutcome ParBody) (par_endpoint : Option String)
    (code_challenge state : String) (login_hint client_id redirect_uri : Option String)
    (scope : String) :
    (Option String × Option Int) × List (String × List (String × Option String)) :=
  if !(strTruthy par_endpoint) then ((none, none), [])
  else
    let ep := par_endpoint.getD ""
    let params := parParams code_challenge state login_hint client_id redirect_uri scope
    match net ep with
    | .ok data =>
      if strTruthy data.request_uri then ((data.request_uri, data.expires_in), [(ep, params)])
      else ((none, none), [(ep, params)])
    | _ => ((none, none), [(ep, params)])

/-! ### The final authorization URL of main() (src/main.py lines 548-550)

The f-string is written over three physical lines joined by
backslash-newline line continuations; a continuation removes only the
newline, so the twelve spaces indenting each continued line are part of
the literal. -/

/-- The twelve spaces of indentation that the f-string line continuations
leave inside the constructed URL. -/
def authUrlIndent : String := "            "

/-- The authorization URL main() constructs and prints after a successful
PAR request. -/
def authUrlOf (auth_endpoint request_uri : String) : String :=
  auth_endpoint ++ "?" ++ authUrlIndent
    ++ "client_id=https://madrilenyer.neocities.org/bsky/oauth/client-metadata.json"
    ++ authUrlIndent ++ "&request_uri=" ++ request_uri

/-! ### The orchestrator main() (src/main.py lines 458-561) -/

/-- One observable event of main(): the start of one numbered stage
(1 identity resolution, 2 DID document fetch, 3 PDS metadata fetch,
4 authorization-server extraction, 5 authorization-server metadata fetch,
6 state/PKCE generation, 7 PAR request), or one network request. -/
inductive Ev where
  | stage (n : Nat)
  | net (url : String)
deriving DecidableEq

/-- What main() produces: its Boolean return value, the ordered trace of
stage starts and network requests, and the authorization URL it prints on
full success. -/
structure MainResult where
  success : Bool
  events : List Ev
  authUrl : Option String
deriving DecidableEq

/-- The environment of one run of main(): the network oracles of the five
request kinds, the outputs of secrets.token_hex(32) and
secrets.token_bytes, and the USERNAME and APP_URL configuration values. -/
structure World where
  resolveNet : String → HttpOutcome ResolveBody
  didNet : String → HttpOutcome DidDocument
  pdsNet : String → HttpOutcome PdsMetadata
  authNet : String → HttpOutcome AuthMetadata
  parNet : String → HttpOutcome ParBody
  tokenHex : String
  tokenBytes : Nat → List Nat
  username : String
  app_url : String

/-- generate_oauth_state() of main.py (lines 288-305): 32 random bytes hex
encoded, here the oracle value. -/
def generate_oauth_state (w : World) : String := w.tokenHex

/-- The code verifier main() generates with the default length 128; the
length is in range, so the Except is ok (the error branch is unreachable
and the default value is never used). -/
def mainCodeVerifier (w : World) : String :=
  match (generate_code_verifier 128 w.tokenBytes).1 with
  | .ok s => s
  | .error _ => ""

/-- The code challenge main() generates; the verifier consists of base64url
alphabet characters, so the ASCII encoding cannot fail (the error branch
is unreachable and the default value is never used). -/
def mainCodeChallenge (w : World) : String :=
  match generate_code_challenge (mainCodeVerifier w) with
  | .ok s => s
  | .error _ => ""

/-- main() of main.py as a function of its World, recording its Boolean
result, the trace of stage starts and network requests in order, and the
authorization URL printed on full success. -/
def mainRun (w : World) : MainResult :=
  let r1 := resolve_identity w.resolveNet w.username
  let e1 : List Ev := Ev.stage 1 :: r1.2.map Ev.net
  if !(strTruthy r1.1) then ⟨false, e1, none⟩ else
  let r2 := get_did_document w.didNet (r1.1.getD "")
  let e2 := e1 ++ Ev.stage 2 :: r2.2.map Ev.net
  if !(didDocOptTruthy r2.1.1 && strTruthy r2.1.2) then ⟨false, e2, none⟩ else
  let r3 := get_pds_metadata w.pdsNet r2.1.2
  let e3 := e2 ++ Ev.stage 3 :: r3.2.map Ev.net
  if !(pdsMetaOptTruthy r3.1) then ⟨false, e3, none⟩ else
  let r4 := extract_auth_server r3.1
  let e4 := e3 ++ [Ev.stage 4]
  if !(optListTruthy r4) then ⟨false, e4, none⟩ else
  let r5 := get_auth_server_metadata w.authNet (r4.getD [])
  let e5 := e4 ++ Ev.stage 5 :: r5.2.map Ev.net
  if !(authMetaOptTruthy r5.1.1) then ⟨false, e5, none⟩ else
  let oauth_state := generate_oauth_state w
  let code_challenge := mainCodeChallenge w
  let e6 := e5 ++ [Ev.stage 6]
  let par_endpoint := r5.1.2.2.2
  if strTruthy par_endpoint then
    let rp := send_par_request w.parNet par_endpoint code_challenge oauth_state
      (some w.username)
      (some ("https://" ++ w.app_url ++ "/oauth/client-metadata.json"))
      (some ("https://" ++ w.app_url ++ "/oauth/callback/"))
      defaultScope
    let e7 := e6 ++ Ev.stage 7 :: rp.2.map (fun c => Ev.net c.1)
    if strTruthy rp.1.1 then
      ⟨true, e7, some (authUrlOf ((r5.1.2.1).getD "") ((rp.1.1).getD ""))⟩
    else
      ⟨false, e7, none⟩
  else
    ⟨false, e6, none⟩

/-! ### Statement-side helpers for the claims -/

/-- One candidate authorization server qualifies when its metadata fetch
succeeds and both required endpoints are Python-truthy: this is the
acceptance test of the loop of get_auth_server_metadata. -/
def asQualifies (net : String → HttpOutcome AuthMetadata) (auth_server : String) : Bool :=
  match net (authMetadataUrl auth_server) with
  | .ok m => strTruthy m.authorization_endpoint && strTruthy m.token_endpoint
  | _ => false

/-- The tuple get_auth_server_metadata returns for an accepted candidate. -/
def asAcceptTuple (net : String → HttpOutcome AuthMetadata) (auth_server : String) :
    Option AuthMetadata × Option String × Option String × Option String :=
  match net (authMetadataUrl auth_server) with
  | .ok m => (some m, m.authorization_endpoint, m.token_endpoint,
      m.pushed_authorization_request_endpoint)
  | _ => (none, none, none, none)

/-- A metadata record with both required endpoints, served by the second
candidate of the HTTP-500 scenario. -/
def secondServerMeta : AuthMetadata :=
  ⟨false, some "https://as2.example/oauth/authorize",
    some "https://as2.example/oauth/token", some "https://as2.example/oauth/par"⟩

/-- A network where the first candidate answers HTTP 500 and the second
serves valid metadata with both required endpoints. -/
def net500then200 : String → HttpOutcome AuthMetadata := fun url =>
  if url = authMetadataUrl "https://as1.example" then .httpStatusError 500
  else if url = authMetadataUrl "https://as2.example" then .ok secondServerMeta
  else .requestError

/-- Stage 1 of main(): identity resolution with its network trace. -/
def s1res (w : World) : Option String × List String :=
  resolve_identity w.resolveNet w.username

/-- Stage 2 of main(): the DID-document fetch, fed the resolved DID. -/
def s2res (w : World) : (Option DidDocument × Option String) × List String :=
  get_did_document w.didNet ((s1res w).1.getD "")

/-- Stage 3 of main(): the PDS metadata fetch, fed the PDS URL. -/
def s3res (w : World) : Option PdsMetadata × List String :=
  get_pds_metadata w.pdsNet (s2res w).1.2

/-- Stage 4 of main(): the authorization-server extraction (no network). -/
def s4res (w : World) : Option (List String) :=
  extract_auth_server (s3res w).1

/-- Stage 5 of main(): the authorization-server metadata fetch. -/
def s5res (w : World) :
    (Option AuthMetadata × Option String × Option String × Option String) × List String :=
  get_auth_server_metadata w.authNet ((s4res w).getD [])

/-- Whether discovery stage i (0-based: 0 resolution, 1 DID document,
2 PDS metadata, 3 extraction, 4 auth-server metadata) passes the guard
main() applies to its result. -/
def stageOk (w : World) : Nat → Bool
  | 0 => strTruthy (s1res w).1
  | 1 => didDocOptTruthy (s2res w).1.1 && strTruthy (s2res w).1.2
  | 2 => pdsMetaOptTruthy (s3res w).1
  | 3 => optListTruthy (s4res w)
  | 4 => authMetaOptTruthy (s5res w).1.1
  | _ => true

/-- The events of main() up to and including discovery stage 1. -/
def ev1 (w : World) : List Ev := Ev.stage 1 :: (s1res w).2.map Ev.net

/-- The events of main() up to and including discovery stage 2. -/
def ev2 (w : World) : List Ev := ev1 w ++ Ev.stage 2 :: (s2res w).2.map Ev.net

/-- The events of main() up to and including discovery stage 3. -/
def ev3 (w : World) : List Ev := ev2 w ++ Ev.stage 3 :: (s3res w).2.map Ev.net

/-- The events of main() up to and including discovery stage 4. -/
def ev4 (w : World) : List Ev := ev3 w ++ [Ev.stage 4]

/-- The events of main() up to and including discovery stage 5. -/
def ev5 (w : World) : List Ev := ev4 w ++ Ev.stage 5 :: (s5res w).2.map Ev.net

/-- The events of main() up to and including discovery stage i (0-based). -/
def eventsThrough (w : World) : Nat → List Ev
  | 0 => ev1 w
  | 1 => ev2 w
  | 2 => ev3 w
  | 3 => ev4 w
  | _ => ev5 w

/-- A concrete world whose username matches neither grammar: stage 1 of
main() fails with no network request made. -/
def failWorld : World where
  resolveNet := fun _ => .requestError
  didNet := fun _ => .requestError
  pdsNet := fun _ => .requestError
  authNet := fun _ => .requestError
  parNet := fun _ => .requestError
  tokenHex := "00"
  tokenBytes := fun n => List.replicate n 0
  username := "!!!"
  app_url := "app.example.com"

/-! ### Lemmas about splitting and the grammars -/

/-- Splitting never produces an empty list of parts. -/
theorem splitDots_ne_nil (cs : List Char) : splitDots cs ≠ [] := by
  cases cs with
  | nil => simp [splitDots]
  | cons c rest =>
    simp only [splitDots]
    cases h : splitDots rest with
    | nil => simp
    | cons p ps => by_cases hc : c = '.' <;> simp [hc]

/-- Joining the parts of a split restores the string. -/
theorem joinDots_splitDots (cs : List Char) : joinDots (splitDots cs) = cs := by
  induction cs with
  | nil => rfl
  | cons c rest ih =>
    simp only [splitDots]
    cases h : splitDots rest with
    | nil => exact absurd h (splitDots_ne_nil rest)
    | cons p ps =>
      rw [h] at ih
      by_cases hc : c = '.'
      · subst hc
        simp [joinDots, ih]
      · simp only [if_neg hc]
        cases ps with
        | nil =>
          simp only [joinDots] at ih ⊢
          rw [ih]
        | cons q qs =>
          simp only [joinDots] at ih ⊢
          rw [List.cons_append, ih]

/-- Appending one non-dot character does not change the number of parts. -/
theorem splitDots_append_length (xs : List Char) (c : Char) (hc : ¬(c = '.')) :
    (splitDots (xs ++ [c])).length = (splitDots xs).length := by
  induction xs with
  | nil => simp [splitDots, hc]
  | cons a rest ih =>
    simp only [List.cons_append, splitDots]
    cases h1 : splitDots (rest ++ [c]) with
    | nil => exact absurd h1 (splitDots_ne_nil _)
    | cons p ps =>
      cases h2 : splitDots rest with
      | nil => exact absurd h2 (splitDots_ne_nil _)
      | cons q qs =>
        rw [h1, h2] at ih
        simp only [List.length_cons] at ih
        by_cases ha : a = '.' <;> simp [ha] <;> omega

/-- Every character of the string is a dot or belongs to some part of the
split. -/
theorem mem_splitDots (cs : List Char) (c : Char) (hc : c ∈ cs) :
    c = '.' ∨ ∃ p ∈ splitDots cs, c ∈ p := by
  induction cs with
  | nil => simp at hc
  | cons a rest ih =>
    rcases List.mem_cons.mp hc with rfl | hmem
    · by_cases ha : c = '.'
      · exact Or.inl ha
      · refine Or.inr ?_
        simp only [splitDots]
        cases h2 : splitDots rest with
        | nil => exact absurd h2 (splitDots_ne_nil _)
        | cons q qs => exact ⟨c :: q, by simp [ha], by simp⟩
    · rcases ih hmem with hdot | ⟨p, hp, hcp⟩
      · exact Or.inl hdot
      · refine Or.inr ?_
        simp only [splitDots]
        cases h2 : splitDots rest with
        | nil => exact absurd h2 (splitDots_ne_nil _)
        | cons q qs =>
          rw [h2] at hp
          rcases List.mem_cons.mp hp with rfl | hps
          · by_cases ha : a = '.'
            · exact ⟨p, by simp [ha], hcp⟩
            · exact ⟨a :: p, by simp [ha], by simp [hcp]⟩
          · by_cases ha : a = '.' <;> exact ⟨p, by simp [ha, hps], hcp⟩

/-- Every character of a label of the handle grammar is a label
character. -/
theorem labelCore_mem (l : List Char) (hl : labelCore l = true) (c : Char) (hc : c ∈ l) :
    isLabelCh c = true := by
  match l with
  | [] => simp [labelCore] at hl
  | [a] =>
    simp only [labelCore] at hl
    rcases List.mem_singleton.mp hc with rfl
    simp [isLabelCh, hl]
  | a :: b :: rest =>
    simp only [labelCore, Bool.and_eq_true] at hl
    rcases List.mem_cons.mp hc with rfl | hc2
    · simp [isLabelCh, hl.1.1.1]
    · exact List.all_eq_true.mp hl.1.2 c hc2

/-- Every character of the final label of the handle grammar is a label
character. -/
theorem finalLabelCore_mem (l : List Char) (hl : finalLabelCore l = true) (c : Char) (hc : c ∈ l) :
    isLabelCh c = true := by
  match l with
  | [] => simp [finalLabelCore] at hl
  | [a] =>
    simp only [finalLabelCore] at hl
    rcases List.mem_singleton.mp hc with rfl
    simp [isLabelCh, isAlnumCh, hl]
  | a :: b :: rest =>
    simp only [finalLabelCore, Bool.and_eq_true] at hl
    rcases List.mem_cons.mp hc with rfl | hc2
    · simp [isLabelCh, isAlnumCh, hl.1.1.1]
    · exact List.all_eq_true.mp hl.1.2 c hc2

/-- A string of the core handle grammar contains no colon. -/
theorem handleCore_no_colon (cs : List Char) (h : handleCoreMatch cs = true) : ':' ∉ cs := by
  intro hmem
  simp only [handleCoreMatch, Bool.and_eq_true, decide_eq_true_eq] at h
  obtain ⟨⟨hlen, hall⟩, hlast⟩ := h
  rcases mem_splitDots cs ':' hmem with hdot | ⟨p, hp, hcp⟩
  · exact absurd hdot (by decide)
  · rcases List.eq_nil_or_concat (splitDots cs) with hnil | ⟨L, b, hLb⟩
    · exact splitDots_ne_nil cs hnil
    · rw [List.concat_eq_append] at hLb
      rw [hLb] at hp hall hlast
      rw [List.dropLast_concat] at hall
      rw [List.getLastD_concat] at hlast
      rcases List.mem_append.mp hp with hpL | hpb
      · have := labelCore_mem p (List.all_eq_true.mp hall p hpL) ':' hcp
        exact absurd this (by decide)
      · rcases List.mem_singleton.mp hpb with rfl
        have := finalLabelCore_mem p hlast ':' hcp
        exact absurd this (by decide)

/-- A string of the core DID grammar contains a colon (its fourth
character). -/
theorem didCore_colon_mem (cs : List Char) (h : didCoreMatch cs = true) : ':' ∈ cs := by
  match cs with
  | [] => simp [didCoreMatch] at h
  | [_] => simp [didCoreMatch] at h
  | [_, _] => simp [didCoreMatch] at h
  | [_, _, _] => simp [didCoreMatch] at h
  | c1 :: c2 :: c3 :: c4 :: rest =>
    simp only [didCoreMatch, Bool.and_eq_true, decide_eq_true_eq] at h
    obtain ⟨⟨⟨⟨h1, h2⟩, h3⟩, h4⟩, _⟩ := h
    subst h4
    simp

/-- Unpacking a Python re.match of an anchored pattern: either the whole
string matches the core, or the string is the core match followed by one
newline. -/
theorem pyDollarMatch_cases (core : List Char → Bool) (cs : List Char)
    (h : pyDollarMatch core cs = true) :
    core cs = true ∨ ∃ l, cs = l ++ ['\n'] ∧ core l = true := by
  simp only [pyDollarMatch, Bool.or_eq_true] at h
  rcases h with h | h
  · exact Or.inl h
  · cases hl : cs.getLast? with
    | none => rw [hl] at h; simp at h
    | some c =>
      rw [hl] at h
      simp only [Bool.and_eq_true, decide_eq_true_eq] at h
      obtain ⟨rfl, hcore⟩ := h
      have hdec := List.dropLast_append_getLast? '\n' hl
      exact Or.inr ⟨cs.dropLast, hdec.symm, hcore⟩

/-- A handle-grammar match contains no colon. -/
theorem handle_match_no_colon (s : String) (h : HANDLE_REGEX_match s = true) :
    ':' ∉ s.data := by
  intro hmem
  rcases pyDollarMatch_cases handleCoreMatch s.data h with hc | ⟨l, heq, hc⟩
  · exact handleCore_no_colon s.data hc hmem
  · rw [heq] at hmem
    rcases List.mem_append.mp hmem with hl | hn
    · exact handleCore_no_colon l hc hl
    · rcases List.mem_singleton.mp hn with h2
      exact absurd h2 (by decide)

/-- A DID-grammar match contains a colon. -/
theorem did_match_colon (s : String) (h : DID_RE_match s = true) : ':' ∈ s.data := by
  rcases pyDollarMatch_cases didCoreMatch s.data h with hc | ⟨l, heq, hc⟩
  · exact didCore_colon_mem s.data hc
  · rw [heq]
    exact List.mem_append_left _ (didCore_colon_mem l hc)

/-- The handle grammar and the DID grammar are disjoint. -/
theorem handle_did_disjoint (s : String) (h : HANDLE_REGEX_match s = true) :
    DID_RE_match s = false := by
  cases hd : DID_RE_match s with
  | false => rfl
  | true => exact absurd (did_match_colon s hd) (handle_match_no_colon s h)

/-- A string whose split has at least two parts is its first part, a dot,
and the join of the remaining parts. -/
theorem two_parts_decomp (cs : List Char) (h2 : 2 ≤ (splitDots cs).length) :
    cs = (splitDots cs).headD [] ++ '.' :: joinDots (splitDots cs).tail := by
  cases hp : splitDots cs with
  | nil => exact absurd hp (splitDots_ne_nil cs)
  | cons p ps =>
    cases ps with
    | nil => rw [hp] at h2; simp at h2
    | cons q qs =>
      have hj := joinDots_splitDots cs
      rw [hp] at hj
      simp only [joinDots] at hj
      simp [← hj]

/-- C10: the Handle grammar and the DID grammar are disjoint: no string
matches both HANDLE_REGEX and DID_RE (a handle match contains no colon
while every DID match does), so the handle-first classification order of
resolve_identity never classifies a DID-grammar string as a handle. -/
theorem handle_did_grammars_disjoint (u : String) (h : HANDLE_REGEX_match u = true) :
    DID_RE_match u = false :=
  handle_did_disjoint u h

/-- Witness for C10 at the concrete handle alice.example.com. -/
theorem handle_did_grammars_disjoint_witness :
    DID_RE_match "alice.example.com" = false :=
  handle_did_grammars_disjoint "alice.example.com" (by decide)

/-- C5: resolve_identity performs no network request unless its input
matches the Handle grammar: a DID-grammar input is returned unchanged with
an empty request trace, an input matching neither grammar yields None with
an empty request trace, and any input not matching the Handle grammar
produces an empty request trace. -/
theorem resolve_identity_no_network_unless_handle
    (net : String → HttpOutcome ResolveBody) (u : String) :
    (DID_RE_match u = true → resolve_identity net u = (some u, []))
    ∧ (HANDLE_REGEX_match u = false → DID_RE_match u = false →
        resolve_identity net u = (none, []))
    ∧ (HANDLE_REGEX_match u = false → (resolve_identity net u).2 = []) := by
  refine ⟨?_, ?_, ?_⟩
  · intro hd
    have hh : HANDLE_REGEX_match u = false := by
      cases hh : HANDLE_REGEX_match u with
      | false => rfl
      | true => rw [handle_did_disjoint u hh] at hd; exact absurd hd (by simp)
    simp [resolve_identity, hh, hd]
  · intro hh hd
    simp [resolve_identity, hh, hd]
  · intro hh
    cases hd : DID_RE_match u <;> simp [resolve_identity, hh, hd]

/-- C9: an input accepted by the Handle grammar splits on dots into at
least two parts, so the could-not-extract-domain guard of resolve_identity
is unreachable for inputs that reach it, and the derived domain (the join
of the parts after the first) is the input with its first dot-separated
label and the following dot removed. -/
theorem handle_split_two_parts_domain (u : String) (h : HANDLE_REGEX_match u = true) :
    2 ≤ (splitDots u.data).length
    ∧ u.data = (splitDots u.data).headD []
        ++ '.' :: joinDots (splitDots u.data).tail := by
  have h2 : 2 ≤ (splitDots u.data).length := by
    rcases pyDollarMatch_cases handleCoreMatch u.data h with hc | ⟨l, heq, hc⟩
    · simp only [handleCoreMatch, Bool.and_eq_true, decide_eq_true_eq] at hc
      exact hc.1.1
    · simp only [handleCoreMatch, Bool.and_eq_true, decide_eq_true_eq] at hc
      rw [heq, splitDots_append_length l '\n' (by decide)]
      exact hc.1.1
  exact ⟨h2, two_parts_decomp u.data h2⟩

/-- Witness for C9 at the concrete handle alice.example.com. -/
theorem handle_split_two_parts_domain_witness :
    2 ≤ (splitDots "alice.example.com".data).length
    ∧ "alice.example.com".data = (splitDots "alice.example.com".data).headD []
        ++ '.' :: joinDots (splitDots "alice.example.com".data).tail :=
  handle_split_two_parts_domain "alice.example.com" (by decide)

/-- C8: generate_code_verifier raises its ValueError exactly when the
requested length lies outside [43,128], and then before any random bytes
are drawn (the token-bytes trace is empty); for every length inside the
range it returns a string normally. -/
theorem generate_code_verifier_valueerror_iff (length : Int) (tokenBytes : Nat → List Nat) :
    ((length < 43 ∨ 128 < length) →
      generate_code_verifier length tokenBytes
        = (.error "Code verifier length must be between 43 and 128 characters", []))
    ∧ (43 ≤ length → length ≤ 128 →
      ∃ s, (generate_code_verifier length tokenBytes).1 = .ok s) := by
  constructor
  · intro h
    simp [generate_code_verifier, h]
  · intro h1 h2
    have hn : ¬(length < 43 ∨ 128 < length) := by omega
    refine ⟨String.mk ((rstripChar '='
      (base64urlEncode (tokenBytes (length * 3 / 4).toNat))).take length.toNat), ?_⟩
    simp [generate_code_verifier, hn]

/-- C1 failing input: at the in-range length 45 the code draws
45*3//4 = 33 random bytes (floor, not ceiling), whose unpadded base64url
encoding has only 44 characters, so the returned verifier has 44
characters, not 45 (witnessed on the all-zero byte oracle, where the
encoding is 44 letters A; the encoded length does not depend on the byte
values). -/
theorem generate_code_verifier_45_gives_44_chars :
    (generate_code_verifier 45 (fun n => List.replicate n 0)).1
      = Except.ok (String.mk (List.replicate 44 'A'))
    ∧ (generate_code_verifier 45 (fun n => List.replicate n 0)).2 = [33]
    ∧ (String.mk (List.replicate 44 'A')).length = 44 := by
  refine ⟨rfl, rfl, by decide⟩

/-- C4: generate_code_challenge of an ASCII verifier is the SHA-256 hash
of the verifier's ASCII bytes, base64url-encoded with the padding
characters stripped, and it is deterministic: equal verifiers give equal
challenges. -/
theorem generate_code_challenge_sha256 (v : String)
    (h : v.data.all (fun c => c.toNat < 128) = true) :
    generate_code_challenge v
      = .ok (String.mk (rstripChar '=' (base64urlEncode (sha256 (v.data.map Char.toNat)))))
    ∧ (∀ u, v = u → generate_code_challenge v = generate_code_challenge u) := by
  refine ⟨?_, fun u hu => by rw [hu]⟩
  simp [generate_code_challenge, asciiEncode, h]

/-- Witness for C4 at the concrete verifier abc. -/
theorem generate_code_challenge_sha256_witness :
    generate_code_challenge "abc"
      = .ok (String.mk (rstripChar '=' (base64urlEncode (sha256 ("abc".data.map Char.toNat)))))
    ∧ (∀ u, "abc" = u → generate_code_challenge "abc" = generate_code_challenge u) :=
  generate_code_challenge_sha256 "abc" (by decide)

/-- The embedded hash pipeline reproduces the published SHA-256 test
vector for abc, giving independent evidence that the sha256 and
base64urlEncode embeddings agree with hashlib and base64. -/
theorem generate_code_challenge_abc_vector :
    generate_code_challenge "abc" = .ok "ungWv48Bz-pBQUDeXa4iI7ADYaOWF3qctBD_YfIAFa0" := by
  rfl

/-- C2 failing input: the authorization URL main() builds from the
authorization endpoint and the request URI is not the plain
query-parameter concatenation the specification states: the f-string
backslash line continuations keep the twelve spaces indenting each
continued source line, so twelve spaces follow the question mark and
twelve more precede the ampersand. -/
theorem auth_url_interposes_spaces :
    authUrlOf "https://as.example/oauth/authorize" "urn:ietf:params:oauth:request_uri:req-abc"
      = "https://as.example/oauth/authorize?            client_id=https://madrilenyer.neocities.org/bsky/oauth/client-metadata.json            &request_uri=urn:ietf:params:oauth:request_uri:req-abc"
    ∧ ¬(authUrlOf "https://as.example/oauth/authorize" "urn:ietf:params:oauth:request_uri:req-abc"
      = "https://as.example/oauth/authorize?client_id=https://madrilenyer.neocities.org/bsky/oauth/client-metadata.json&request_uri=urn:ietf:params:oauth:request_uri:req-abc") := by
  refine ⟨by decide, by decide⟩

/-- C3: get_auth_server_metadata tries the candidates in the given order,
skipping every candidate whose fetch errs (HTTP, transport, or JSON
parse) or whose metadata lacks a truthy authorization_endpoint or
token_endpoint, and returns at the first qualifying candidate with that
candidate's metadata and endpoints (the PAR endpoint passed through,
possibly none); when no candidate qualifies it returns all none.  In
particular, when the first candidate answers HTTP 500 and the second
serves valid metadata with both endpoints, the second candidate's
metadata is returned. -/
theorem get_auth_server_metadata_first_qualifying
    (net : String → HttpOutcome AuthMetadata) (servers : List String) :
    ((get_auth_server_metadata net servers).1 =
      match servers.find? (asQualifies net) with
      | some s => asAcceptTuple net s
      | none => (none, none, none, none))
    ∧ (get_auth_server_metadata net500then200
        ["https://as1.example", "https://as2.example"]).1
      = (some secondServerMeta, some "https://as2.example/oauth/authorize",
         some "https://as2.example/oauth/token", some "https://as2.example/oauth/par") := by
  constructor
  · induction servers with
    | nil => simp [get_auth_server_metadata]
    | cons s rest ih =>
      cases hn : net (authMetadataUrl s) with
      | ok m =>
        cases ha : strTruthy m.authorization_endpoint with
        | false =>
          have hq : asQualifies net s = false := by simp [asQualifies, hn, ha]
          rw [List.find?_cons_of_neg _ (by simp [hq])]
          simp [get_auth_server_metadata, hn, ha, ih]
        | true =>
          cases ht : strTruthy m.token_endpoint with
          | false =>
            have hq : asQualifies net s = false := by simp [asQualifies, hn, ha, ht]
            rw [List.find?_cons_of_neg _ (by simp [hq])]
            simp [get_auth_server_metadata, hn, ha, ht, ih]
          | true =>
            have hq : asQualifies net s = true := by simp [asQualifies, hn, ha, ht]
            rw [List.find?_cons_of_pos _ hq]
            simp [get_auth_server_metadata, hn, ha, ht, asAcceptTuple]
      | httpStatusError code =>
        have hq : asQualifies net s = false := by simp [asQualifies, hn]
        rw [List.find?_cons_of_neg _ (by simp [hq])]
        simp [get_auth_server_metadata, hn, ih]
      | requestError =>
        have hq : asQualifies net s = false := by simp [asQualifies, hn]
        rw [List.find?_cons_of_neg _ (by simp [hq])]
        simp [get_auth_server_metadata, hn, ih]
      | jsonDecodeError =>
        have hq : asQualifies net s = false := by simp [asQualifies, hn]
        rw [List.find?_cons_of_neg _ (by simp [hq])]
        simp [get_auth_server_metadata, hn, ih]
  · rfl

/-- C7: send_par_request is total and returns instead of raising: a falsy
(None or empty) endpoint gives (None, None) with no request made; an HTTP
error, a transport error, a JSON parse failure, or a 2xx body without a
truthy request_uri gives (None, None) after the one POST; a 2xx body with
a truthy request_uri gives (request_uri, expires_in), the expiry passed
through unchanged (possibly none). -/
theorem send_par_request_error_handling (net : String → HttpOutcome ParBody)
    (ep : Option String) (cc st : String) (lh cid ru : Option String) (scope : String) :
    (strTruthy ep = false →
      send_par_request net ep cc st lh cid ru scope = ((none, none), []))
    ∧ (∀ e, ep = some e → ¬(e = "") →
        ((∀ code, net e = .httpStatusError code →
            send_par_request net ep cc st lh cid ru scope
              = ((none, none), [(e, parParams cc st lh cid ru scope)]))
         ∧ (net e = .requestError →
            send_par_request net ep cc st lh cid ru scope
              = ((none, none), [(e, parParams cc st lh cid ru scope)]))
         ∧ (net e = .jsonDecodeError →
            send_par_request net ep cc st lh cid ru scope
              = ((none, none), [(e, parParams cc st lh cid ru scope)]))
         ∧ (∀ body, net e = .ok body → strTruthy body.request_uri = false →
            send_par_request net ep cc st lh cid ru scope
              = ((none, none), [(e, parParams cc st lh cid ru scope)]))
         ∧ (∀ body, net e = .ok body → strTruthy body.request_uri = true →
            send_par_request net ep cc st lh cid ru scope
              = ((body.request_uri, body.expires_in),
                 [(e, parParams cc st lh cid ru scope)])))) := by
  constructor
  · intro h
    simp [send_par_request, h]
  · intro e he hne
    subst he
    have hs : strTruthy (some e) = true := by simp [strTruthy, hne]
    refine ⟨?_, ?_, ?_, ?_, ?_⟩
    · intro code hc
      simp [send_par_request, hs, hc]
    · intro hc
      simp [send_par_request, hs, hc]
    · intro hc
      simp [send_par_request, hs, hc]
    · intro body hc hu
      simp [send_par_request, hs, hc, hu]
    · intro body hc hu
      simp [send_par_request, hs, hc, hu]

/-- C6: main() is fail-fast over its five discovery stages: the stages run
strictly in the order identity resolution, DID-document fetch, PDS
metadata fetch, authorization-server extraction, authorization-server
metadata fetch, and the moment stage i yields a result failing main()'s
guard (in particular any not-found none result), main() returns failure
with exactly the events of stages up to and including i: no later stage
starts and no further network request is made. -/
theorem main_fail_fast (w : World) (i : Nat) (hi : i < 5)
    (hpre : ∀ j, j < i → stageOk w j = true) (hfail : stageOk w i = false) :
    mainRun w = ⟨false, eventsThrough w i, none⟩ := by
  interval_cases i
  · simp only [stageOk, s1res] at hfail
    simp [mainRun, hfail, eventsThrough, ev1, s1res]
  · have h0 := hpre 0 (by omega)
    simp only [stageOk, s1res] at h0
    simp only [stageOk, s2res, s1res] at hfail
    simp [mainRun, h0, hfail, eventsThrough, ev2, ev1, s2res, s1res]
  · have h0 := hpre 0 (by omega)
    have h1 := hpre 1 (by omega)
    simp only [stageOk, s1res] at h0
    simp only [stageOk, s2res, s1res] at h1
    simp only [stageOk, s3res, s2res, s1res] at hfail
    simp [mainRun, h0, h1, hfail, eventsThrough, ev3, ev2, ev1, s3res, s2res, s1res]
  · have h0 := hpre 0 (by omega)
    have h1 := hpre 1 (by omega)
    have h2 := hpre 2 (by omega)
    simp only [stageOk, s1res] at h0
    simp only [stageOk, s2res, s1res] at h1
    simp only [stageOk, s3res, s2res, s1res] at h2
    simp only [stageOk, s4res, s3res, s2res, s1res] at hfail
    simp [mainRun, h0, h1, h2, hfail, eventsThrough, ev4, ev3, ev2, ev1,
      s4res, s3res, s2res, s1res]
  · have h0 := hpre 0 (by omega)
    have h1 := hpre 1 (by omega)
    have h2 := hpre 2 (by omega)
    have h3 := hpre 3 (by omega)
    simp only [stageOk, s1res] at h0
    simp only [stageOk, s2res, s1res] at h1
    simp only [stageOk, s3res, s2res, s1res] at h2
    simp only [stageOk, s4res, s3res, s2res, s1res] at h3
    simp only [stageOk, s5res, s4res, s3res, s2res, s1res] at hfail
    simp [mainRun, h0, h1, h2, h3, hfail, eventsThrough, ev5, ev4, ev3, ev2, ev1,
      s5res, s4res, s3res, s2res, s1res]

/-- Witness for C6: in the concrete world whose username matches neither
grammar, stage 1 fails and main() stops after it with no network
request. -/
theorem main_fail_fast_witness :
    mainRun failWorld = ⟨false, [Ev.stage 1], none⟩ := by
  have h := main_fail_fast failWorld 0 (by omega)
    (fun j hj => absurd hj (Nat.not_lt_zero j)) (by decide)
  simpa [eventsThrough, ev1, s1res, failWorld, resolve_identity] using h
